import Mathlib

/-!
Verification of the NuruNuru feed-ranking and relay-selection engine
(`rust-engine/nurunuru-core/src/recommendation.rs` and `relay.rs`).

Modelling conventions:
* `u64` counts and timestamps are `Nat`; `usize` is `Nat`.
* `f64` score arithmetic is modelled exactly in `ℚ`: every operation the
  scoring pipeline performs on scores is `+`, `*`, `min`, `max`, comparison,
  or one of the two transcendental primitives `0.5_f64.powf` and `log10`.
  Those two primitives are threaded through as explicit function parameters
  (`powHalf`, `log10`), so every theorem quantifying over them holds for
  every possible realisation of the floating-point primitives.
* `HashMap` is an association list (`List (key × value)`, first hit wins,
  matching single-insertion maps); `HashSet` is a `List` queried only
  through membership, matching the source which only calls `contains`/`insert`.
* Rust's stable `sort_by` is `List.mergeSort` (stable) with the Boolean
  comparator induced by the source comparator (`le a b ↔ cmp a b ≠ Greater`).
* The geographic relay selector works on genuine real numbers (`ℝ`),
  since it uses trigonometric functions.
-/

set_option maxRecDepth 400000

namespace NuruNuru

/-- Engagement weights (`EngagementWeights` in config.rs). -/
structure EngagementWeights where
  zap : ℚ
  reply : ℚ
  repost : ℚ
  like : ℚ
  quote : ℚ
  bookmark : ℚ
deriving DecidableEq

/-- Default engagement weights from `config.rs`. -/
def defaultEngagementWeights : EngagementWeights :=
  { zap := 100, reply := 30, repost := 25, like := 5, quote := 35, bookmark := 15 }

/-- Social boost multipliers (`SocialBoostConfig` in config.rs). -/
structure SocialBoostConfig where
  second_degree : ℚ
  mutual_follow : ℚ
  high_engagement_author : ℚ
  first_degree : ℚ
  unknown : ℚ
deriving DecidableEq

/-- Default social boost multipliers from `config.rs`. -/
def defaultSocialBoost : SocialBoostConfig :=
  { second_degree := 3, mutual_follow := 5/2, high_engagement_author := 2,
    first_degree := 1/2, unknown := 1 }

/-- Time decay parameters (`TimeDecayConfig` in config.rs). -/
structure TimeDecayConfig where
  half_life_hours : ℚ
  max_age_hours : ℚ
  freshness_boost : ℚ
  min_score : ℚ
deriving DecidableEq

/-- Default time decay parameters from `config.rs`:
half-life 6 h, max age 48 h, freshness boost 1.5, min score 0.1. -/
def defaultTimeDecay : TimeDecayConfig :=
  { half_life_hours := 6, max_age_hours := 48, freshness_boost := 3/2, min_score := 1/10 }

/-- Feed category mix targets (`FeedMixRatio` in types.rs). -/
structure FeedMixRatio where
  second_degree : ℚ
  out_of_network : ℚ
  first_degree : ℚ
deriving DecidableEq

/-- Default feed mix from `types.rs`: 50% 2nd degree, 30% out of network, 20% 1st degree. -/
def defaultFeedMix : FeedMixRatio :=
  { second_degree := 1/2, out_of_network := 3/10, first_degree := 1/5 }

/-- Recommendation tuning parameters (`RecommendationConfig` in config.rs). -/
structure RecommendationConfig where
  engagement_weights : EngagementWeights
  social_boost : SocialBoostConfig
  time_decay : TimeDecayConfig
  feed_mix : FeedMixRatio
deriving DecidableEq

/-- Default recommendation configuration from `config.rs`. -/
def defaultRecommendationConfig : RecommendationConfig :=
  { engagement_weights := defaultEngagementWeights, social_boost := defaultSocialBoost,
    time_decay := defaultTimeDecay, feed_mix := defaultFeedMix }

/-- Engagement counts for a single event (`EngagementData` in types.rs). -/
structure EngagementData where
  likes : Nat
  reposts : Nat
  replies : Nat
  zaps : Nat
  quotes : Nat
deriving DecidableEq

/-- `EngagementData::default()`: all counters zero. -/
def EngagementData.default : EngagementData :=
  { likes := 0, reposts := 0, replies := 0, zaps := 0, quotes := 0 }

/-- Parsed user profile (`UserProfile` in types.rs). Only `nip05` is read
by the scoring engine, but all fields are kept. -/
structure UserProfile where
  name : String
  display_name : String
  about : String
  picture : String
  banner : String
  nip05 : String
  lud16 : String
  website : String
  birthday : String
  pubkey : String
deriving DecidableEq

/-- The user's engagement history (`EngagementHistory` in types.rs):
per-author counters, modelled as association lists. -/
structure EngagementHistory where
  liked_authors : List (String × Nat)
  reposted_authors : List (String × Nat)
  replied_authors : List (String × Nat)
deriving DecidableEq

/-- Scored post for feed ordering (`ScoredPost` in types.rs). -/
structure ScoredPost where
  event_id : String
  pubkey : String
  score : ℚ
  created_at : Nat
deriving DecidableEq

/-- `HashMap::get` on an association-list map. -/
def lookup? {α : Type} (m : List (String × α)) (k : String) : Option α :=
  (m.find? (fun p => p.1 == k)).map (fun p => p.2)

/-- `HashMap::get(..).copied().unwrap_or(d)`. -/
def lookupD {α : Type} (m : List (String × α)) (k : String) (d : α) : α :=
  (lookup? m k).getD d

/-- Time-decay factor for a post (`RecommendationEngine::time_decay`).

The source reads `SystemTime::now()` internally; a pure embedding cannot
read a clock, so the wall-clock value observed by that read is the explicit
parameter `now` (this is exactly the restructuring §5/§9 of the spec call
for). `now.saturating_sub(created_at)` is `Nat` subtraction. `powHalf`
models the f64 primitive `0.5_f64.powf`. -/
def time_decay (td : TimeDecayConfig) (powHalf : ℚ → ℚ) (now created_at : Nat) : ℚ :=
  let age_hours : ℚ := ((now - created_at : Nat) : ℚ) / 3600
  if age_hours < 1 then td.freshness_boost
  else if td.max_age_hours < age_hours then td.min_score
  else powHalf (age_hours / td.half_life_hours)

/-- Engagement score from reaction counts (`RecommendationEngine::engagement_score`). -/
def engagement_score (w : EngagementWeights) (data : EngagementData) : ℚ :=
  (data.zaps : ℚ) * w.zap + (data.replies : ℚ) * w.reply + (data.reposts : ℚ) * w.repost
    + (data.likes : ℚ) * w.like + (data.quotes : ℚ) * w.quote + 1

/-- Social boost based on network position (`RecommendationEngine::social_boost`). -/
def social_boost (sb : SocialBoostConfig) (author_pubkey : String)
    (follow_list second_degree followers : List String)
    (engagement_history : EngagementHistory) : ℚ :=
  let liked : ℚ := (lookupD engagement_history.liked_authors author_pubkey 0 : Nat)
  let reposted : ℚ := (lookupD engagement_history.reposted_authors author_pubkey 0 : Nat)
  let replied : ℚ := (lookupD engagement_history.replied_authors author_pubkey 0 : Nat)
  let total_engagements := liked + reposted * 2 + replied * 3
  let engagement_boost :=
    if 10 ≤ total_engagements then sb.high_engagement_author
    else if 5 ≤ total_engagements then 3/2
    else 1
  if author_pubkey ∈ follow_list then
    if author_pubkey ∈ followers then sb.mutual_follow * engagement_boost
    else sb.first_degree * engagement_boost
  else if author_pubkey ∈ second_degree then sb.second_degree * engagement_boost
  else sb.unknown * engagement_boost

/-- Author quality score (`RecommendationEngine::author_quality`).
`log10` models the f64 primitive `f64::log10`. -/
def author_quality (log10 : ℚ → ℚ) (profile : Option UserProfile)
    (follower_count : Nat) : ℚ :=
  let quality : ℚ := 1
  let quality :=
    match profile with
    | some p => if p.nip05 ≠ "" then quality * (13/10) else quality
    | none => quality
  if 0 < follower_count then
    let follower_boost := 1 + log10 (max (follower_count : ℚ) 1) * (1/10)
    quality * min follower_boost (3/2)
  else quality

/-- Geohash proximity boost (`RecommendationEngine::geohash_boost`). -/
def geohash_boost (user_geohash author_geohash : Option String) : ℚ :=
  match user_geohash, author_geohash with
  | some u, some a =>
    let common := ((u.toList.zip a.toList).takeWhile (fun p => p.1 == p.2)).length
    if 5 ≤ common then 2
    else if 3 ≤ common then 3/2
    else if 2 ≤ common then 6/5
    else 1
  | _, _ => 1

/-- Full recommendation score for a single post (`RecommendationEngine::score_post`).
Returns `none` if the post should be filtered out (muted, not-interested). -/
def score_post (cfg : RecommendationConfig) (powHalf log10 : ℚ → ℚ)
    (event_id author_pubkey : String) (created_at : Nat)
    (engagement : EngagementData)
    (follow_list second_degree_follows followers : List String)
    (engagement_history : EngagementHistory)
    (profiles : List (String × UserProfile))
    (muted_pubkeys not_interested_posts : List String)
    (author_scores : List (String × ℚ))
    (user_geohash : Option String)
    (follower_count : Nat)
    (now : Nat) : Option ℚ :=
  if event_id ∈ not_interested_posts ∨ author_pubkey ∈ muted_pubkeys then none
  else
    let eng_score := engagement_score cfg.engagement_weights engagement
    let social := social_boost cfg.social_boost author_pubkey follow_list
      second_degree_follows followers engagement_history
    let profile := lookup? profiles author_pubkey
    let quality := author_quality log10 profile follower_count
    let geo := geohash_boost user_geohash (profile.bind (fun _ => (none : Option String)))
    let author_modifier := lookupD author_scores author_pubkey 1
    let time := time_decay cfg.time_decay powHalf now created_at
    let final_score := eng_score * social * quality * geo * author_modifier * time
    if 0 < final_score then some final_score else none

/-- Bundle of the inputs to `RecommendationEngine::rank_feed`, one field per
parameter of the Rust function (field names match the parameter names). -/
structure RankInput where
  posts : List (String × String × Nat)
  engagements : List (String × EngagementData)
  follow_list : List String
  second_degree_follows : List String
  followers : List String
  engagement_history : EngagementHistory
  profiles : List (String × UserProfile)
  muted_pubkeys : List String
  not_interested_posts : List String
  author_scores : List (String × ℚ)
  user_geohash : Option String
  author_stats : List (String × Nat)
  limit : Nat
  now : Nat
deriving DecidableEq

/-- The scoring pass of `rank_feed` (recommendation.rs lines 229-260):
score all posts, dropping the filtered ones. -/
def scoredPosts (cfg : RecommendationConfig) (powHalf log10 : ℚ → ℚ)
    (inp : RankInput) : List ScoredPost :=
  inp.posts.filterMap (fun q =>
    let eid := q.1
    let pk := q.2.1
    let ts := q.2.2
    let eng := lookupD inp.engagements eid EngagementData.default
    let fc := lookupD inp.author_stats pk 0
    (score_post cfg powHalf log10 eid pk ts eng inp.follow_list
        inp.second_degree_follows inp.followers inp.engagement_history inp.profiles
        inp.muted_pubkeys inp.not_interested_posts inp.author_scores
        inp.user_geohash fc inp.now).map
      (fun score => { event_id := eid, pubkey := pk, score := score, created_at := ts }))

/-- Category of posts by 2nd-degree authors (`cat_2nd`, the first branch of
the categorize loop). -/
def cat_2nd (cfg : RecommendationConfig) (powHalf log10 : ℚ → ℚ)
    (inp : RankInput) : List ScoredPost :=
  (scoredPosts cfg powHalf log10 inp).filter
    (fun sp => sp.pubkey ∈ inp.second_degree_follows)

/-- Category of posts by 1st-degree authors (`cat_1st`, the second branch). -/
def cat_1st (cfg : RecommendationConfig) (powHalf log10 : ℚ → ℚ)
    (inp : RankInput) : List ScoredPost :=
  (scoredPosts cfg powHalf log10 inp).filter
    (fun sp => sp.pubkey ∉ inp.second_degree_follows ∧ sp.pubkey ∈ inp.follow_list)

/-- Category of out-of-network posts (`cat_out`, the else branch). -/
def cat_out (cfg : RecommendationConfig) (powHalf log10 : ℚ → ℚ)
    (inp : RankInput) : List ScoredPost :=
  (scoredPosts cfg powHalf log10 inp).filter
    (fun sp => sp.pubkey ∉ inp.second_degree_follows ∧ sp.pubkey ∉ inp.follow_list)

/-- Rust's stable `sort_by` with comparator
`|a, b| b.score.partial_cmp(&a.score).unwrap_or(Equal)`: a stable sort whose
induced ordering puts `a` before `b` when `b.score ≤ a.score` (in `ℚ` the
comparison is total, so `unwrap_or(Equal)` is never exercised). -/
def sortByScoreDesc (l : List ScoredPost) : List ScoredPost :=
  l.mergeSort (fun a b => decide (b.score ≤ a.score))

/-- Per-category quota: `cat.len().min((limit as f64 * ratio) as usize)`.
The f64-to-usize `as` conversion truncates toward zero and saturates at 0,
modelled as `Int.toNat ∘ Int.floor` on the exact rational product. -/
def target (category_len limit : Nat) (ratio : ℚ) : Nat :=
  min category_len (Int.toNat (Int.floor ((limit : ℚ) * ratio)))

/-- Quota target for the 2nd-degree category (`target_2nd`). -/
def target_2nd (cfg : RecommendationConfig) (powHalf log10 : ℚ → ℚ)
    (inp : RankInput) : Nat :=
  target (cat_2nd cfg powHalf log10 inp).length inp.limit cfg.feed_mix.second_degree

/-- Quota target for the out-of-network category (`target_out`). -/
def target_out (cfg : RecommendationConfig) (powHalf log10 : ℚ → ℚ)
    (inp : RankInput) : Nat :=
  target (cat_out cfg powHalf log10 inp).length inp.limit cfg.feed_mix.out_of_network

/-- Quota target for the 1st-degree category (`target_1st`). -/
def target_1st (cfg : RecommendationConfig) (powHalf log10 : ℚ → ℚ)
    (inp : RankInput) : Nat :=
  target (cat_1st cfg powHalf log10 inp).length inp.limit cfg.feed_mix.first_degree

/-- The quota ("mix categories") phase of `rank_feed` (lines 290-302): push the
top `target` entries of each sorted category, in the fixed order 2nd-degree,
out-of-network, 1st-degree. The pushes are unconditional; `result_ids`
receives exactly the ids of the pushed entries. -/
def quotaSel (cfg : RecommendationConfig) (powHalf log10 : ℚ → ℚ)
    (inp : RankInput) : List ScoredPost :=
  (sortByScoreDesc (cat_2nd cfg powHalf log10 inp)).take (target_2nd cfg powHalf log10 inp)
    ++ (sortByScoreDesc (cat_out cfg powHalf log10 inp)).take (target_out cfg powHalf log10 inp)
    ++ (sortByScoreDesc (cat_1st cfg powHalf log10 inp)).take (target_1st cfg powHalf log10 inp)

/-- The fill loop of `rank_feed` (lines 310-318): walk the globally sorted
candidates, stop once `limit` entries are present, skip already-selected ids,
and record each pushed id. -/
def fill (limit : Nat) : List ScoredPost → List ScoredPost → List String → List ScoredPost
  | [], result, _ => result
  | sp :: rest, result, result_ids =>
    if limit ≤ result.length then result
    else if sp.event_id ∈ result_ids then fill limit rest result result_ids
    else fill limit rest (result ++ [sp]) (sp.event_id :: result_ids)

/-- The result after the "fill remaining" step (lines 304-319): if fewer than
`limit` entries were selected (`remaining = limit.saturating_sub(len) > 0`),
run the fill loop over the globally score-sorted surviving candidates,
seeding `result_ids` with the ids pushed by the quota phase. -/
def afterFill (cfg : RecommendationConfig) (powHalf log10 : ℚ → ℚ)
    (inp : RankInput) : List ScoredPost :=
  if 0 < inp.limit - (quotaSel cfg powHalf log10 inp).length then
    fill inp.limit (sortByScoreDesc (scoredPosts cfg powHalf log10 inp))
      (quotaSel cfg powHalf log10 inp)
      ((quotaSel cfg powHalf log10 inp).map (fun sp => sp.event_id))
  else quotaSel cfg powHalf log10 inp

/-- Sort and rank a batch of posts, applying category mixing
(`RecommendationEngine::rank_feed`): final sort by score descending, then
`truncate(limit)`. -/
def rank_feed (cfg : RecommendationConfig) (powHalf log10 : ℚ → ℚ)
    (inp : RankInput) : List ScoredPost :=
  (sortByScoreDesc (afterFill cfg powHalf log10 inp)).take inp.limit

/-! ### Concrete instantiations used by witnesses and counterexamples -/

/-- A trivial realisation of the `0.5_f64.powf` primitive, usable wherever a
theorem holds for every realisation. -/
def powHalfHalf : ℚ → ℚ := fun _ => 1/2

/-- A trivial realisation of the `f64::log10` primitive. -/
def log10Zero : ℚ → ℚ := fun _ => 0

/-- Empty engagement history. -/
def emptyHistory : EngagementHistory :=
  { liked_authors := [], reposted_authors := [], replied_authors := [] }

/-- A one-post input: a single unfiltered fresh post by an unknown author. -/
def singlePostInput : RankInput :=
  { posts := [("e1", "a1", 1000)],
    engagements := [], follow_list := [], second_degree_follows := [], followers := [],
    engagement_history := emptyHistory, profiles := [], muted_pubkeys := [],
    not_interested_posts := [], author_scores := [], user_geohash := none,
    author_stats := [], limit := 10, now := 1000 }

/-- An input whose candidate list contains the same `(event_id, pubkey,
created_at)` entry twice — the data model's "identity is event_id" makes
this degenerate, but `rank_feed` accepts any slice. -/
def duplicatePostsInput : RankInput :=
  { posts := [("e1", "a1", 1000), ("e1", "a1", 1000)],
    engagements := [], follow_list := [], second_degree_follows := [], followers := [],
    engagement_history := emptyHistory, profiles := [], muted_pubkeys := [],
    not_interested_posts := [], author_scores := [], user_geohash := none,
    author_stats := [], limit := 10, now := 1000 }

/-- The same duplicated candidate list with `limit = 2`. -/
def duplicatePostsLimit2Input : RankInput :=
  { duplicatePostsInput with limit := 2 }

/-- Two distinct fresh posts by unknown authors, `limit = 2`. -/
def twoPostsInput : RankInput :=
  { posts := [("e1", "a1", 1000), ("e2", "a2", 1000)],
    engagements := [], follow_list := [], second_degree_follows := [], followers := [],
    engagement_history := emptyHistory, profiles := [], muted_pubkeys := [],
    not_interested_posts := [], author_scores := [], user_geohash := none,
    author_stats := [], limit := 2, now := 1000 }

/-- Engagement counts with likes only. -/
def likesOnly (n : Nat) : EngagementData :=
  { likes := n, reposts := 0, replies := 0, zaps := 0, quotes := 0 }

/-- The spec's quota scenario: `limit = 10`, default ratios `(0.5, 0.3, 0.2)`,
category sizes second-degree = 3, out-of-network = 10, first-degree = 1,
with pairwise distinct scores induced by distinct like counts. -/
def scenarioInput : RankInput :=
  { posts := [("s1", "as1", 500), ("s2", "as2", 500), ("s3", "as3", 500),
              ("o1", "ao1", 500), ("o2", "ao2", 500), ("o3", "ao3", 500),
              ("o4", "ao4", 500), ("o5", "ao5", 500), ("o6", "ao6", 500),
              ("o7", "ao7", 500), ("o8", "ao8", 500), ("o9", "ao9", 500),
              ("o10", "ao10", 500), ("f1", "af1", 500)],
    engagements := [("s1", likesOnly 30), ("s2", likesOnly 20), ("s3", likesOnly 10),
                    ("o1", likesOnly 100), ("o2", likesOnly 90), ("o3", likesOnly 80),
                    ("o4", likesOnly 70), ("o5", likesOnly 60), ("o6", likesOnly 50),
                    ("o7", likesOnly 40), ("o8", likesOnly 30), ("o9", likesOnly 20),
                    ("o10", likesOnly 10), ("f1", likesOnly 5)],
    follow_list := ["af1"], second_degree_follows := ["as1", "as2", "as3"],
    followers := [],
    engagement_history := emptyHistory, profiles := [], muted_pubkeys := [],
    not_interested_posts := [], author_scores := [], user_geohash := none,
    author_stats := [], limit := 10, now := 500 }

/-- Exact values of the `0.5_f64.powf` primitive at nonnegative integer
exponents, where the f64 computation is exact (for small exponents); the
proofs only apply it at such points. -/
def powHalfExact : ℚ → ℚ := fun q =>
  if 0 ≤ q.num ∧ q.den = 1 then (1/2 : ℚ) ^ q.num.toNat else 1/2

/-! ### Geographic relay selection (`relay.rs`) -/

/-- Relay with GPS coordinates for proximity-based selection (`GpsRelay` in
relay.rs). `f64` coordinates are the real numbers the decimal literals
denote; `u32` priority is `Nat`. -/
structure GpsRelay where
  url : String
  lat : ℝ
  lon : ℝ
  name : String
  region : String
  priority : Nat

/-- `f64::to_radians`. -/
noncomputable def toRadians (x : ℝ) : ℝ := x * (Real.pi / 180)

/-- The `f64::atan2` primitive (IEEE atan2). Only the region `0 < x` is
exercised by the proofs below. -/
noncomputable def atan2 (y x : ℝ) : ℝ :=
  if 0 < x then Real.arctan (y / x)
  else if x < 0 ∧ 0 ≤ y then Real.arctan (y / x) + Real.pi
  else if x < 0 ∧ y < 0 then Real.arctan (y / x) - Real.pi
  else if x = 0 ∧ 0 < y then Real.pi / 2
  else if x = 0 ∧ y < 0 then -(Real.pi / 2)
  else 0

/-- Approximate distance between two points in km, haversine formula with
Earth radius 6371 km (`calculate_distance` in relay.rs). -/
noncomputable def calculate_distance (lat1 lon1 lat2 lon2 : ℝ) : ℝ :=
  let r : ℝ := 6371
  let d_lat := toRadians (lat2 - lat1)
  let d_lon := toRadians (lon2 - lon1)
  let a := Real.sin (d_lat / 2) ^ 2
    + Real.cos (toRadians lat1) * Real.cos (toRadians lat2) * Real.sin (d_lon / 2) ^ 2
  let c := 2 * atan2 (Real.sqrt a) (Real.sqrt (1 - a))
  r * c

/-- Global relay database with GPS coordinates (`GPS_RELAY_DATABASE` in
relay.rs). -/
noncomputable def GPS_RELAY_DATABASE : List GpsRelay := [
  { url := "wss://yabu.me", lat := 35.6092, lon := 139.73, name := "やぶみ", region := "JP", priority := 1 },
  { url := "wss://relay.nostr.wirednet.jp", lat := 34.706, lon := 135.493, name := "WiredNet JP", region := "JP", priority := 1 },
  { url := "wss://r.kojira.io", lat := 35.6762, lon := 139.6503, name := "Kojira", region := "JP", priority := 1 },
  { url := "wss://relay.origin.land", lat := 35.6673, lon := 139.751, name := "Origin Land", region := "JP", priority := 2 },
  { url := "wss://v-relay.d02.vrtmrz.net", lat := 34.6937, lon := 135.502, name := "vrtmrz", region := "JP", priority := 2 },
  { url := "wss://relay.0xchat.com", lat := 1.35208, lon := 103.82, name := "0xchat", region := "SG", priority := 1 },
  { url := "wss://nostr-01.yakihonne.com", lat := 1.29524, lon := 103.79, name := "Yakihonne", region := "SG", priority := 2 },
  { url := "wss://nostr.dler.com", lat := 25.0501, lon := 121.565, name := "dler", region := "TW", priority := 2 },
  { url := "wss://relay.islandbitcoin.com", lat := 12.8498, lon := 77.6545, name := "Island Bitcoin", region := "IN", priority := 2 },
  { url := "wss://nostr.jerrynya.fun", lat := 31.2304, lon := 121.474, name := "jerrynya", region := "CN", priority := 2 },
  { url := "wss://relay.damus.io", lat := 43.6532, lon := -79.3832, name := "Damus", region := "NA", priority := 1 },
  { url := "wss://relay.primal.net", lat := 43.6532, lon := -79.3832, name := "Primal", region := "NA", priority := 1 },
  { url := "wss://relay.wellorder.net", lat := 45.5201, lon := -122.99, name := "Wellorder", region := "NA", priority := 2 },
  { url := "wss://relay.illuminodes.com", lat := 47.6061, lon := -122.333, name := "Illuminodes", region := "NA", priority := 2 },
  { url := "wss://relay.fundstr.me", lat := 42.3601, lon := -71.0589, name := "Fundstr", region := "NA", priority := 2 },
  { url := "wss://nostrelites.org", lat := 41.8781, lon := -87.6298, name := "Nostrelites", region := "NA", priority := 2 },
  { url := "wss://relay.westernbtc.com", lat := 44.5401, lon := -123.368, name := "Western BTC", region := "NA", priority := 2 },
  { url := "wss://cyberspace.nostr1.com", lat := 40.7057, lon := -74.0136, name := "Cyberspace", region := "NA", priority := 2 },
  { url := "wss://fanfares.nostr1.com", lat := 40.7128, lon := -74.006, name := "Fanfares", region := "NA", priority := 2 },
  { url := "wss://nos.lol", lat := 50.4754, lon := 12.3683, name := "nos.lol", region := "EU", priority := 1 },
  { url := "wss://relay.snort.social", lat := 53.3498, lon := -6.26031, name := "Snort", region := "EU", priority := 1 },
  { url := "wss://nostr.wine", lat := 48.8566, lon := 2.35222, name := "nostr.wine", region := "EU", priority := 1 },
  { url := "wss://relay.nostr.band", lat := 52.52, lon := 13.405, name := "nostr.band", region := "EU", priority := 1 },
  { url := "wss://nostr.bond", lat := 50.1109, lon := 8.68213, name := "nostr.bond", region := "EU", priority := 2 },
  { url := "wss://relay.thebluepulse.com", lat := 49.4521, lon := 11.0767, name := "Blue Pulse", region := "EU", priority := 2 },
  { url := "wss://relay.lumina.rocks", lat := 49.0291, lon := 8.35695, name := "Lumina", region := "EU", priority := 2 },
  { url := "wss://relay.dwadziesciajeden.pl", lat := 52.2297, lon := 21.0122, name := "dwadziesciajeden", region := "EU", priority := 2 },
  { url := "wss://relay.angor.io", lat := 48.1046, lon := 11.6002, name := "Angor", region := "EU", priority := 2 },
  { url := "wss://relay.malxte.de", lat := 52.52, lon := 13.405, name := "malxte", region := "EU", priority := 2 },
  { url := "wss://purplerelay.com", lat := 50.1109, lon := 8.68213, name := "Purple Relay", region := "EU", priority := 2 },
  { url := "wss://nostr.mom", lat := 50.4754, lon := 12.3683, name := "nostr.mom", region := "EU", priority := 2 },
  { url := "wss://relay.nostrhub.fr", lat := 48.1045, lon := 11.6004, name := "NostrHub FR", region := "EU", priority := 2 },
  { url := "wss://wot.dergigi.com", lat := 64.1476, lon := -21.9392, name := "Gigi WoT", region := "EU", priority := 2 },
  { url := "wss://lightning.red", lat := 53.3498, lon := -6.26031, name := "Lightning Red", region := "EU", priority := 2 },
  { url := "wss://relay.nostr.bg", lat := 42.6977, lon := 23.3219, name := "nostr.bg", region := "Global", priority := 1 },
  { url := "wss://nostr.mutinywallet.com", lat := 37.7749, lon := -122.4194, name := "Mutiny", region := "Global", priority := 2 }]

/-- The ordering induced by the sort comparator of `find_nearest_relays`:
`a` may precede `b` iff the comparator does not return `Greater`, i.e.
priority first, then distance. -/
def relayLe (a b : GpsRelay × ℝ) : Prop :=
  a.1.priority < b.1.priority ∨ (a.1.priority = b.1.priority ∧ a.2 ≤ b.2)

/-- The comparator as a Boolean function (classically decidable, since the
distances are real numbers). -/
noncomputable def relayLeB (a b : GpsRelay × ℝ) : Bool :=
  @decide (relayLe a b) (Classical.propDecidable _)

/-- Every database relay paired with its distance to the viewer (the `map`
step of `find_nearest_relays`). -/
noncomputable def scoredRelays (user_lat user_lon : ℝ) : List (GpsRelay × ℝ) :=
  GPS_RELAY_DATABASE.map (fun r => (r, calculate_distance user_lat user_lon r.lat r.lon))

/-- Find nearest relays by GPS coordinates (`find_nearest_relays` in
relay.rs): stable-sort by priority then distance, take the first `count`. -/
noncomputable def find_nearest_relays (user_lat user_lon : ℝ) (count : Nat) :
    List (GpsRelay × ℝ) :=
  ((scoredRelays user_lat user_lon).mergeSort relayLeB).take count

/-! ### Helper lemmas about the sorting and selection machinery -/

/-- Membership is preserved by the score-descending sort. -/
theorem mem_sortByScoreDesc {sp : ScoredPost} {l : List ScoredPost} :
    sp ∈ sortByScoreDesc l ↔ sp ∈ l :=
  (List.mergeSort_perm l _).mem_iff

/-- The score-descending sort is a permutation of its input. -/
theorem sortByScoreDesc_perm (l : List ScoredPost) : List.Perm (sortByScoreDesc l) l :=
  List.mergeSort_perm l _

/-- The score-descending sort sorts: every earlier entry's score is at
least every later entry's score. -/
theorem sortByScoreDesc_pairwise (l : List ScoredPost) :
    (sortByScoreDesc l).Pairwise (fun a b => b.score ≤ a.score) := by
  have h := @List.sorted_mergeSort ScoredPost
    (fun a b : ScoredPost => decide (b.score ≤ a.score))
    (fun a b c hab hbc => by
      simp only [decide_eq_true_eq] at *
      exact le_trans hbc hab)
    (fun a b => by
      simpa only [Bool.or_eq_true, decide_eq_true_eq] using le_total b.score a.score)
    l
  exact h.imp (fun {a b} hab => by simpa using hab)

/-- Elements of `fill`'s output come from the seed result or the candidates. -/
theorem mem_fill {limit : Nat} {sp : ScoredPost} :
    ∀ {l result : List ScoredPost} {ids : List String},
      sp ∈ fill limit l result ids → sp ∈ result ∨ sp ∈ l
  | [], _, _, h => Or.inl h
  | b :: rest, result, ids, h => by
    rw [fill] at h
    split at h
    · exact Or.inl h
    · split at h
      · rcases mem_fill h with h' | h'
        · exact Or.inl h'
        · exact Or.inr (List.mem_cons_of_mem _ h')
      · rcases mem_fill h with h' | h'
        · rcases List.mem_append.1 h' with h'' | h''
          · exact Or.inl h''
          · exact Or.inr (List.mem_cons.2 (Or.inl (List.mem_singleton.1 h'')))
        · exact Or.inr (List.mem_cons_of_mem _ h')

/-- A surviving scored post was never filtered: its id is not in
`not_interested_posts` and its author is not muted. -/
theorem scoredPosts_filters {cfg : RecommendationConfig} {powHalf log10 : ℚ → ℚ}
    {inp : RankInput} {sp : ScoredPost} (h : sp ∈ scoredPosts cfg powHalf log10 inp) :
    sp.event_id ∉ inp.not_interested_posts ∧ sp.pubkey ∉ inp.muted_pubkeys := by
  simp only [scoredPosts, List.mem_filterMap] at h
  obtain ⟨q, _, hmap⟩ := h
  rw [Option.map_eq_some'] at hmap
  obtain ⟨s, hs, hsp⟩ := hmap
  have hfilter : ¬(q.1 ∈ inp.not_interested_posts ∨ q.2.1 ∈ inp.muted_pubkeys) := by
    intro hA
    rw [score_post, if_pos hA] at hs
    exact Option.noConfusion hs
  subst hsp
  exact ⟨fun hmem => hfilter (Or.inl hmem), fun hmem => hfilter (Or.inr hmem)⟩

/-- Every entry of the quota phase comes from the scored set. -/
theorem mem_quotaSel {cfg : RecommendationConfig} {powHalf log10 : ℚ → ℚ}
    {inp : RankInput} {sp : ScoredPost} (h : sp ∈ quotaSel cfg powHalf log10 inp) :
    sp ∈ scoredPosts cfg powHalf log10 inp := by
  simp only [quotaSel, List.mem_append] at h
  rcases h with (h | h) | h <;>
    exact List.mem_of_mem_filter
      (mem_sortByScoreDesc.1 (List.mem_of_mem_take h))

/-- Every entry of the post-fill result comes from the scored set. -/
theorem mem_afterFill {cfg : RecommendationConfig} {powHalf log10 : ℚ → ℚ}
    {inp : RankInput} {sp : ScoredPost} (h : sp ∈ afterFill cfg powHalf log10 inp) :
    sp ∈ scoredPosts cfg powHalf log10 inp := by
  rw [afterFill] at h
  split at h
  · rcases mem_fill h with h' | h'
    · exact mem_quotaSel h'
    · exact mem_sortByScoreDesc.1 h'
  · exact mem_quotaSel h

/-- Every entry of `rank_feed`'s output comes from the scored set. -/
theorem mem_rank_feed {cfg : RecommendationConfig} {powHalf log10 : ℚ → ℚ}
    {inp : RankInput} {sp : ScoredPost} (h : sp ∈ rank_feed cfg powHalf log10 inp) :
    sp ∈ scoredPosts cfg powHalf log10 inp := by
  rw [rank_feed] at h
  exact mem_afterFill (mem_sortByScoreDesc.1 (List.mem_of_mem_take h))

/-- Mapping a subpermutation. -/
theorem subperm_map {α β : Type} (f : α → β) {l₁ l₂ : List α} (h : l₁.Subperm l₂) :
    (l₁.map f).Subperm (l₂.map f) := by
  obtain ⟨l, hp, hs⟩ := h
  exact ⟨l.map f, hp.map f, hs.map f⟩

/-- A subpermutation of a duplicate-free list is duplicate-free. -/
theorem subperm_nodup {α : Type} {l₁ l₂ : List α} (h : l₁.Subperm l₂)
    (hnd : l₂.Nodup) : l₁.Nodup := by
  obtain ⟨l, hp, hs⟩ := h
  exact (hp.nodup_iff).1 (hs.nodup hnd)

/-- Appending subpermutations. -/
theorem subperm_append {α : Type} {l₁ l₂ r₁ r₂ : List α} (hl : l₁.Subperm l₂)
    (hr : r₁.Subperm r₂) : (l₁ ++ r₁).Subperm (l₂ ++ r₂) := by
  obtain ⟨l, hpl, hsl⟩ := hl
  obtain ⟨r, hpr, hsr⟩ := hr
  exact ⟨l ++ r, hpl.append hpr, hsl.append hsr⟩

/-- Splitting a list by a predicate and then splitting the remainder by a
second predicate is a permutation of the list. -/
theorem filter_three_way_perm {α : Type} (p q : α → Bool) (l : List α) :
    List.Perm (l.filter p ++ l.filter (fun a => !p a && q a)
      ++ l.filter (fun a => !p a && !q a)) l := by
  have h2 : List.Perm (l.filter (fun a => !p a && q a) ++ l.filter (fun a => !p a && !q a))
      (l.filter (fun a => !p a)) := by
    have h := List.filter_append_perm q (l.filter (fun a => !p a))
    rw [List.filter_filter, List.filter_filter] at h
    have e1 : (fun a => !p a && q a) = (fun a => q a && !p a) :=
      funext fun a => Bool.and_comm _ _
    have e2 : (fun a => !p a && !q a) = (fun a => !q a && !p a) :=
      funext fun a => Bool.and_comm _ _
    rw [e1, e2]
    exact h
  rw [List.append_assoc]
  exact (List.Perm.append_left _ h2).trans (List.filter_append_perm p l)

/-- The three categories together are a permutation of the scored set. -/
theorem cats_perm (cfg : RecommendationConfig) (powHalf log10 : ℚ → ℚ)
    (inp : RankInput) :
    List.Perm (cat_2nd cfg powHalf log10 inp ++ cat_out cfg powHalf log10 inp
      ++ cat_1st cfg powHalf log10 inp) (scoredPosts cfg powHalf log10 inp) := by
  have h := filter_three_way_perm
    (fun sp : ScoredPost => decide (sp.pubkey ∈ inp.second_degree_follows))
    (fun sp : ScoredPost => decide (sp.pubkey ∉ inp.follow_list))
    (scoredPosts cfg powHalf log10 inp)
  have e1 : (fun sp : ScoredPost =>
      !decide (sp.pubkey ∈ inp.second_degree_follows)
        && decide (sp.pubkey ∉ inp.follow_list))
      = (fun sp : ScoredPost =>
        decide (sp.pubkey ∉ inp.second_degree_follows ∧ sp.pubkey ∉ inp.follow_list)) :=
    funext fun sp => by simp
  have e2 : (fun sp : ScoredPost =>
      !decide (sp.pubkey ∈ inp.second_degree_follows)
        && !decide (sp.pubkey ∉ inp.follow_list))
      = (fun sp : ScoredPost =>
        decide (sp.pubkey ∉ inp.second_degree_follows ∧ sp.pubkey ∈ inp.follow_list)) :=
    funext fun sp => by simp
  rw [e1, e2] at h
  exact h

/-- Event ids of the scored set form a sublist of the input post ids. -/
theorem scoredPosts_ids_sublist (cfg : RecommendationConfig) (powHalf log10 : ℚ → ℚ)
    (inp : RankInput) :
    ((scoredPosts cfg powHalf log10 inp).map (fun sp => sp.event_id)).Sublist
      (inp.posts.map (fun q => q.1)) := by
  rw [scoredPosts]
  induction inp.posts with
  | nil => simp
  | cons a t ih =>
    rw [List.filterMap_cons, List.map_cons]
    cases hfa : (score_post cfg powHalf log10 a.1 a.2.1 a.2.2
        (lookupD inp.engagements a.1 EngagementData.default) inp.follow_list
        inp.second_degree_follows inp.followers inp.engagement_history inp.profiles
        inp.muted_pubkeys inp.not_interested_posts inp.author_scores
        inp.user_geohash (lookupD inp.author_stats a.2.1 0) inp.now) with
    | none => simpa [hfa] using List.Sublist.cons a.1 ih
    | some s => simpa [hfa] using List.Sublist.cons₂ a.1 ih

/-- The quota selection is a subpermutation of the scored set. -/
theorem quotaSel_subperm (cfg : RecommendationConfig) (powHalf log10 : ℚ → ℚ)
    (inp : RankInput) :
    (quotaSel cfg powHalf log10 inp).Subperm (scoredPosts cfg powHalf log10 inp) := by
  rw [quotaSel]
  have t2 : ((sortByScoreDesc (cat_2nd cfg powHalf log10 inp)).take
      (target_2nd cfg powHalf log10 inp)).Subperm (cat_2nd cfg powHalf log10 inp) :=
    ((List.take_sublist _ _).subperm).trans (sortByScoreDesc_perm _).subperm
  have tOut : ((sortByScoreDesc (cat_out cfg powHalf log10 inp)).take
      (target_out cfg powHalf log10 inp)).Subperm (cat_out cfg powHalf log10 inp) :=
    ((List.take_sublist _ _).subperm).trans (sortByScoreDesc_perm _).subperm
  have t1 : ((sortByScoreDesc (cat_1st cfg powHalf log10 inp)).take
      (target_1st cfg powHalf log10 inp)).Subperm (cat_1st cfg powHalf log10 inp) :=
    ((List.take_sublist _ _).subperm).trans (sortByScoreDesc_perm _).subperm
  have hall := subperm_append (subperm_append t2 tOut) t1
  exact hall.trans (cats_perm cfg powHalf log10 inp).subperm

/-- The fill loop preserves duplicate-freeness of the selected event ids, as
long as `result_ids` covers the ids already in the result. -/
theorem fill_nodup (limit : Nat) (l : List ScoredPost) :
    ∀ (result : List ScoredPost) (ids : List String),
      ((result.map (fun sp => sp.event_id)).Nodup) →
      (∀ e ∈ result.map (fun sp => sp.event_id), e ∈ ids) →
      ((fill limit l result ids).map (fun sp => sp.event_id)).Nodup := by
  induction l with
  | nil => intro result ids hnd _; rw [fill]; exact hnd
  | cons sp rest ih =>
    intro result ids hnd hcov
    rw [fill]
    split
    · exact hnd
    · split
      · exact ih result ids hnd hcov
      · rename_i hnotin
        apply ih (result ++ [sp]) (sp.event_id :: ids)
        · rw [List.map_append, List.nodup_append]
          refine ⟨hnd, by simp, ?_⟩
          intro e he
          simp only [List.map_cons, List.map_nil, List.mem_singleton]
          intro hmem
          rcases hmem with rfl
          exact hnotin (hcov _ he)
        · intro e he
          rw [List.map_append] at he
          rcases List.mem_append.1 he with h' | h'
          · exact List.mem_cons_of_mem _ (hcov _ h')
          · simp only [List.map_cons, List.map_nil, List.mem_singleton] at h'
            rcases h' with rfl
            exact List.mem_cons_self _ _

/-- Lower bound on the fill loop's output length: it reaches `limit` unless
the distinct event ids of the seed and candidates run out. Requires that
`ids` is exactly the set of ids of the current result. -/
theorem fill_length_ge (limit : Nat) (l : List ScoredPost) :
    ∀ (result : List ScoredPost) (ids : List String),
      (∀ i, i ∈ ids ↔ i ∈ result.map (fun sp => sp.event_id)) →
      min limit ((result.map (fun sp => sp.event_id)
          ++ l.map (fun sp => sp.event_id)).toFinset.card)
        ≤ (fill limit l result ids).length := by
  induction l with
  | nil =>
    intro result ids _
    rw [fill]
    refine le_trans (min_le_right _ _) ?_
    refine le_trans (List.toFinset_card_le _) ?_
    simp
  | cons sp rest ih =>
    intro result ids hids
    rw [fill]
    split
    · rename_i hge
      exact le_trans (min_le_left _ _) hge
    · split
      · rename_i hlt hin
        have hmem : sp.event_id ∈ result.map (fun sp => sp.event_id) := (hids _).1 hin
        have hcard : (result.map (fun sp => sp.event_id)
            ++ (sp :: rest).map (fun sp => sp.event_id)).toFinset
            = (result.map (fun sp => sp.event_id)
              ++ rest.map (fun sp => sp.event_id)).toFinset := by
          simp only [List.map_cons, List.toFinset_append, List.toFinset_cons]
          rw [Finset.union_insert]
          exact Finset.insert_eq_self.2
            (Finset.mem_union_left _ (List.mem_toFinset.2 hmem))
        rw [hcard]
        exact ih result ids hids
      · rename_i hlt hnin
        have hids' : ∀ i, i ∈ (sp.event_id :: ids) ↔
            i ∈ (result ++ [sp]).map (fun sp => sp.event_id) := by
          intro i
          simp only [List.mem_cons, List.map_append, List.mem_append, hids i,
            List.map_cons, List.map_nil, List.mem_singleton]
          tauto
        have hres := ih (result ++ [sp]) (sp.event_id :: ids) hids'
        have hcard : ((result ++ [sp]).map (fun sp => sp.event_id)
            ++ rest.map (fun sp => sp.event_id))
            = (result.map (fun sp => sp.event_id)
              ++ (sp :: rest).map (fun sp => sp.event_id)) := by
          simp [List.map_append]
        rw [hcard] at hres
        exact hres

/-! ### Claims -/

/-- C1: for every input to `rank_feed` and `score_post`, a post whose
event_id is in `not_interested_posts`, or whose author is in
`muted_pubkeys`, never appears in the scored set (its `score_post` is
`none`) or the final returned list, regardless of all other signal
inputs. -/
theorem claim_C1_hard_filter_exclusion :
    (∀ (cfg : RecommendationConfig) (powHalf log10 : ℚ → ℚ)
       (event_id author_pubkey : String) (created_at : Nat)
       (engagement : EngagementData)
       (follow_list second_degree_follows followers : List String)
       (engagement_history : EngagementHistory)
       (profiles : List (String × UserProfile))
       (muted_pubkeys not_interested_posts : List String)
       (author_scores : List (String × ℚ))
       (user_geohash : Option String) (follower_count now : Nat),
       event_id ∈ not_interested_posts ∨ author_pubkey ∈ muted_pubkeys →
       score_post cfg powHalf log10 event_id author_pubkey created_at engagement
         follow_list second_degree_follows followers engagement_history profiles
         muted_pubkeys not_interested_posts author_scores user_geohash
         follower_count now = none)
    ∧ (∀ (cfg : RecommendationConfig) (powHalf log10 : ℚ → ℚ) (inp : RankInput)
         (sp : ScoredPost), sp ∈ rank_feed cfg powHalf log10 inp →
         sp.event_id ∉ inp.not_interested_posts ∧ sp.pubkey ∉ inp.muted_pubkeys) := by
  constructor
  · intro cfg powHalf log10 event_id author_pubkey created_at engagement
      follow_list second_degree_follows followers engagement_history profiles
      muted_pubkeys not_interested_posts author_scores user_geohash
      follower_count now hA
    rw [score_post, if_pos hA]
  · intro cfg powHalf log10 inp sp h
    exact scoredPosts_filters (mem_rank_feed h)

/-- Witness for C1: a concrete muted-author post scores `none`, and the
single surviving post of a concrete ranking run passes both filters. -/
theorem claim_C1_hard_filter_exclusion_witness :
    score_post defaultRecommendationConfig powHalfHalf log10Zero "e1" "a1" 0
      EngagementData.default [] [] [] emptyHistory [] ["a1"] [] [] none 0 0 = none
    ∧ ((⟨"e1", "a1", 3/2, 1000⟩ : ScoredPost).event_id ∉
        singlePostInput.not_interested_posts
      ∧ (⟨"e1", "a1", 3/2, 1000⟩ : ScoredPost).pubkey ∉
        singlePostInput.muted_pubkeys) :=
  ⟨claim_C1_hard_filter_exclusion.1 defaultRecommendationConfig powHalfHalf log10Zero
      "e1" "a1" 0 EngagementData.default [] [] [] emptyHistory [] ["a1"] [] [] none 0 0
      (Or.inr (by simp)),
   claim_C1_hard_filter_exclusion.2 defaultRecommendationConfig powHalfHalf log10Zero
      singlePostInput ⟨"e1", "a1", 3/2, 1000⟩ (by with_unfolding_all decide)⟩

/-- C2 as stated is false: on an input whose post list repeats an event_id,
the quota phase pushes both copies without a duplicate check, and the
returned list contains the same event_id twice. -/
theorem claim_C2_counterexample :
    ((rank_feed defaultRecommendationConfig powHalfHalf log10Zero
        duplicatePostsInput).map (fun sp => sp.event_id)) = ["e1", "e1"]
    ∧ ¬ ((rank_feed defaultRecommendationConfig powHalfHalf log10Zero
        duplicatePostsInput).map (fun sp => sp.event_id)).Nodup := by
  constructor
  · with_unfolding_all decide
  · with_unfolding_all decide

/-- C2 amended: `rank_feed` returns at most `limit` entries for every input;
and whenever the input posts' event_ids are pairwise distinct, no two
entries of the returned list share an event_id. -/
theorem claim_C2_amended_limit_and_nodup (cfg : RecommendationConfig)
    (powHalf log10 : ℚ → ℚ) (inp : RankInput) :
    (rank_feed cfg powHalf log10 inp).length ≤ inp.limit
    ∧ ((inp.posts.map (fun q => q.1)).Nodup →
       ((rank_feed cfg powHalf log10 inp).map (fun sp => sp.event_id)).Nodup) := by
  constructor
  · rw [rank_feed]
    exact List.length_take_le _ _
  · intro hposts
    have hscored : ((scoredPosts cfg powHalf log10 inp).map
        (fun sp => sp.event_id)).Nodup :=
      (scoredPosts_ids_sublist cfg powHalf log10 inp).nodup hposts
    have hsel : ((quotaSel cfg powHalf log10 inp).map
        (fun sp => sp.event_id)).Nodup :=
      subperm_nodup (subperm_map _ (quotaSel_subperm cfg powHalf log10 inp)) hscored
    have hfillres : ((afterFill cfg powHalf log10 inp).map
        (fun sp => sp.event_id)).Nodup := by
      rw [afterFill]
      split
      · exact fill_nodup inp.limit _ _ _ hsel (fun e he => he)
      · exact hsel
    rw [rank_feed]
    have hsorted : ((sortByScoreDesc (afterFill cfg powHalf log10 inp)).map
        (fun sp => sp.event_id)).Nodup :=
      (((sortByScoreDesc_perm _).map _).nodup_iff).2 hfillres
    exact ((List.take_sublist _ _).map _).nodup hsorted

/-- Witness for C2 amended: on a concrete three-post duplicate-free input the
bound and the distinctness hold. -/
theorem claim_C2_amended_witness :
    (rank_feed defaultRecommendationConfig powHalfHalf log10Zero
      singlePostInput).length ≤ singlePostInput.limit
    ∧ ((rank_feed defaultRecommendationConfig powHalfHalf log10Zero
        singlePostInput).map (fun sp => sp.event_id)).Nodup :=
  ⟨(claim_C2_amended_limit_and_nodup defaultRecommendationConfig powHalfHalf log10Zero
      singlePostInput).1,
   (claim_C2_amended_limit_and_nodup defaultRecommendationConfig powHalfHalf log10Zero
      singlePostInput).2 (by with_unfolding_all decide)⟩

/-- C3: for every input, the list returned by `rank_feed` is sorted by score
in non-increasing order (every earlier entry's score is at least every later
entry's score, so in particular every adjacent pair is non-increasing). -/
theorem claim_C3_output_sorted_nonincreasing (cfg : RecommendationConfig)
    (powHalf log10 : ℚ → ℚ) (inp : RankInput) :
    (rank_feed cfg powHalf log10 inp).Pairwise (fun a b => b.score ≤ a.score) := by
  rw [rank_feed]
  exact List.Pairwise.sublist (List.take_sublist _ _) (sortByScoreDesc_pairwise _)

/-- C5 as stated is false: on an input with two surviving candidates that
share an event_id and `limit = 2`, the fill step's duplicate check leaves
the result short — 2 candidates survive scoring, yet only 1 entry is
returned. -/
theorem claim_C5_counterexample :
    duplicatePostsLimit2Input.limit
        ≤ (scoredPosts defaultRecommendationConfig powHalfHalf log10Zero
            duplicatePostsLimit2Input).length
    ∧ (rank_feed defaultRecommendationConfig powHalfHalf log10Zero
        duplicatePostsLimit2Input).length ≠ duplicatePostsLimit2Input.limit := by
  constructor
  · with_unfolding_all decide
  · with_unfolding_all decide

/-- C5 amended: whenever the surviving candidates carry at least `limit`
pairwise-distinct event_ids, `rank_feed` returns exactly `limit` entries. -/
theorem claim_C5_amended_fill_reaches_limit (cfg : RecommendationConfig)
    (powHalf log10 : ℚ → ℚ) (inp : RankInput)
    (h : inp.limit ≤ ((scoredPosts cfg powHalf log10 inp).map
        (fun sp => sp.event_id)).toFinset.card) :
    (rank_feed cfg powHalf log10 inp).length = inp.limit := by
  have hge : inp.limit ≤ (afterFill cfg powHalf log10 inp).length := by
    rw [afterFill]
    split
    · rename_i hrem
      refine le_trans ?_ (fill_length_ge inp.limit
        (sortByScoreDesc (scoredPosts cfg powHalf log10 inp))
        (quotaSel cfg powHalf log10 inp)
        ((quotaSel cfg powHalf log10 inp).map (fun sp => sp.event_id))
        (fun i => Iff.rfl))
      refine le_min (le_refl _) ?_
      have hsub : ((scoredPosts cfg powHalf log10 inp).map
          (fun sp => sp.event_id)).toFinset
          ⊆ ((quotaSel cfg powHalf log10 inp).map (fun sp => sp.event_id)
            ++ (sortByScoreDesc (scoredPosts cfg powHalf log10 inp)).map
              (fun sp => sp.event_id)).toFinset := by
        rw [List.toFinset_append]
        intro x hx
        refine Finset.mem_union_right _ ?_
        rw [List.mem_toFinset] at hx ⊢
        obtain ⟨sp, hsp, rfl⟩ := List.mem_map.1 hx
        exact List.mem_map_of_mem _ (mem_sortByScoreDesc.2 hsp)
      exact le_trans h (Finset.card_le_card hsub)
    · rename_i hrem
      omega
  rw [rank_feed, List.length_take, sortByScoreDesc, List.length_mergeSort]
  omega

/-- Witness for C5 amended: two distinct surviving candidates, `limit = 2`,
exactly 2 entries returned. -/
theorem claim_C5_amended_witness :
    (rank_feed defaultRecommendationConfig powHalfHalf log10Zero twoPostsInput).length
      = twoPostsInput.limit :=
  claim_C5_amended_fill_reaches_limit defaultRecommendationConfig powHalfHalf log10Zero
    twoPostsInput (by with_unfolding_all decide)

/-- C4: for each category, the quota-phase selection size equals
`min(category_size, floor(limit * ratio))`, computed independently per
ratio, and the quota phase selects exactly the sum of the three quotas. In
the spec's scenario (limit 10, ratios (0.5, 0.3, 0.2), sizes (3, 10, 1))
the quotas are (3, 3, 1), the quota phase yields 7 entries, and the 3
remaining slots are filled with the highest-scoring unselected
candidates (o4, o5, o6). -/
theorem claim_C4_quota_formula_and_scenario :
    (∀ (cfg : RecommendationConfig) (powHalf log10 : ℚ → ℚ) (inp : RankInput),
      target_2nd cfg powHalf log10 inp
          = min (cat_2nd cfg powHalf log10 inp).length
            (Int.toNat (Int.floor ((inp.limit : ℚ) * cfg.feed_mix.second_degree)))
        ∧ target_out cfg powHalf log10 inp
          = min (cat_out cfg powHalf log10 inp).length
            (Int.toNat (Int.floor ((inp.limit : ℚ) * cfg.feed_mix.out_of_network)))
        ∧ target_1st cfg powHalf log10 inp
          = min (cat_1st cfg powHalf log10 inp).length
            (Int.toNat (Int.floor ((inp.limit : ℚ) * cfg.feed_mix.first_degree)))
        ∧ (quotaSel cfg powHalf log10 inp).length
          = target_2nd cfg powHalf log10 inp + target_out cfg powHalf log10 inp
            + target_1st cfg powHalf log10 inp)
    ∧ target_2nd defaultRecommendationConfig powHalfHalf log10Zero scenarioInput = 3
    ∧ target_out defaultRecommendationConfig powHalfHalf log10Zero scenarioInput = 3
    ∧ target_1st defaultRecommendationConfig powHalfHalf log10Zero scenarioInput = 1
    ∧ (quotaSel defaultRecommendationConfig powHalfHalf log10Zero scenarioInput).length = 7
    ∧ (quotaSel defaultRecommendationConfig powHalfHalf log10Zero scenarioInput).map
        (fun sp => sp.event_id) = ["s1", "s2", "s3", "o1", "o2", "o3", "f1"]
    ∧ List.map (fun sp => sp.event_id)
        (((sortByScoreDesc (scoredPosts defaultRecommendationConfig powHalfHalf log10Zero
            scenarioInput)).filter
          (fun sp => sp.event_id ∉ (quotaSel defaultRecommendationConfig powHalfHalf
            log10Zero scenarioInput).map (fun x => x.event_id))).take 3)
        = ["o4", "o5", "o6"]
    ∧ (rank_feed defaultRecommendationConfig powHalfHalf log10Zero scenarioInput).map
        (fun sp => sp.event_id)
        = ["o1", "s1", "o2", "o3", "o4", "s2", "o5", "o6", "s3", "f1"] := by
  refine ⟨?general, ?t2, ?tout, ?t1, ?qlen, ?qids, ?fillsrc, ?out⟩
  case general =>
    intro cfg powHalf log10 inp
    refine ⟨rfl, rfl, rfl, ?_⟩
    have l2 : ((sortByScoreDesc (cat_2nd cfg powHalf log10 inp)).take
        (target_2nd cfg powHalf log10 inp)).length = target_2nd cfg powHalf log10 inp := by
      rw [List.length_take, sortByScoreDesc, List.length_mergeSort, target_2nd, target]
      omega
    have lo : ((sortByScoreDesc (cat_out cfg powHalf log10 inp)).take
        (target_out cfg powHalf log10 inp)).length = target_out cfg powHalf log10 inp := by
      rw [List.length_take, sortByScoreDesc, List.length_mergeSort, target_out, target]
      omega
    have l1 : ((sortByScoreDesc (cat_1st cfg powHalf log10 inp)).take
        (target_1st cfg powHalf log10 inp)).length = target_1st cfg powHalf log10 inp := by
      rw [List.length_take, sortByScoreDesc, List.length_mergeSort, target_1st, target]
      omega
    rw [quotaSel, List.length_append, List.length_append, l2, lo, l1]
  case t2 => with_unfolding_all decide
  case tout => with_unfolding_all decide
  case t1 => with_unfolding_all decide
  case qlen => with_unfolding_all decide
  case qids => with_unfolding_all decide
  case fillsrc => with_unfolding_all decide
  case out => with_unfolding_all decide

/-- The author-side geohash computed by `score_post` is always `none`. -/
theorem geohash_boost_author_none (u : Option String) : geohash_boost u none = 1 := by
  cases u <;> rfl

/-- C6: the embedded `time_decay` takes `now` as an explicit parameter and is
a pure function of it — but the value of `now` changes the result for fixed
`created_at` and configuration, so the source's internal `SystemTime::now()`
read makes two invocations of the Rust `time_decay` disagree once the wall
clock has advanced across a branch boundary: evaluated at wall-clock second
1000 a post created at second 1000 gets the freshness boost 1.5, evaluated
at wall-clock second 1000000 it gets the old-post floor 0.1. -/
theorem claim_C6_wall_clock_read :
    time_decay defaultTimeDecay powHalfHalf 1000 1000 = 3/2
    ∧ time_decay defaultTimeDecay powHalfHalf 1000000 1000 = 1/10
    ∧ time_decay defaultTimeDecay powHalfHalf 1000 1000
      ≠ time_decay defaultTimeDecay powHalfHalf 1000000 1000 := by
  refine ⟨?_, ?_, ?_⟩ <;> with_unfolding_all decide

/-- C7 as stated is false: `min_score` is not a floor over all ages. At age
24 h (now = 86400, created_at = 0) with the default configuration the decay
branch computes `0.5 ^ (24 / 6) = 0.5 ^ 4 = 1/16 = 0.0625`, strictly below
`min_score = 0.1` (the f64 computation `0.5f64.powf(4.0)` is exact). -/
theorem claim_C7_counterexample :
    time_decay defaultTimeDecay powHalfExact 86400 0 = 1/16
    ∧ time_decay defaultTimeDecay powHalfExact 86400 0 < defaultTimeDecay.min_score := by
  constructor
  · with_unfolding_all decide
  · with_unfolding_all decide

/-- C7 amended: `min_score` is the exact value returned for every post older
than `max_age_hours` (whenever `max_age_hours ≥ 1` so the old-post branch is
reachable), and the default `min_score` is positive — very old posts keep a
non-zero multiplier. For intermediate ages the exponential branch may fall
below `min_score`, so it is not a global floor. -/
theorem claim_C7_amended_old_post_floor :
    (∀ (td : TimeDecayConfig) (powHalf : ℚ → ℚ) (now created_at : Nat),
      1 ≤ td.max_age_hours →
      td.max_age_hours < ((now - created_at : Nat) : ℚ) / 3600 →
      time_decay td powHalf now created_at = td.min_score)
    ∧ 0 < defaultTimeDecay.min_score := by
  constructor
  · intro td powHalf now created_at h1 h2
    have hge : ¬ (((now - created_at : Nat) : ℚ) / 3600 < 1) :=
      not_lt.2 (le_trans h1 (le_of_lt h2))
    simp only [time_decay]
    rw [if_neg hge, if_pos h2]
  · with_unfolding_all decide

/-- Witness for C7 amended: a post 200 hours old under the default
configuration gets exactly the `min_score` floor 0.1. -/
theorem claim_C7_amended_witness :
    time_decay defaultTimeDecay powHalfHalf 720000 0 = defaultTimeDecay.min_score
    ∧ 0 < defaultTimeDecay.min_score :=
  ⟨claim_C7_amended_old_post_floor.1 defaultTimeDecay powHalfHalf 720000 0
      (by with_unfolding_all decide) (by with_unfolding_all decide),
   claim_C7_amended_old_post_floor.2⟩

/-- C9: the author location passed to the geographic-boost calculator by
`score_post` is always `none`, the geographic factor is therefore exactly 1,
and the result of `score_post` does not depend on the viewer's geohash. -/
theorem claim_C9_geo_boost_noop :
    (∀ (u : Option String), geohash_boost u none = 1)
    ∧ (∀ (profile : Option UserProfile),
        (profile.bind (fun _ => (none : Option String))) = none)
    ∧ (∀ (cfg : RecommendationConfig) (powHalf log10 : ℚ → ℚ)
        (event_id author_pubkey : String) (created_at : Nat)
        (engagement : EngagementData)
        (follow_list second_degree_follows followers : List String)
        (engagement_history : EngagementHistory)
        (profiles : List (String × UserProfile))
        (muted_pubkeys not_interested_posts : List String)
        (author_scores : List (String × ℚ))
        (g1 g2 : Option String) (follower_count now : Nat),
        score_post cfg powHalf log10 event_id author_pubkey created_at engagement
          follow_list second_degree_follows followers engagement_history profiles
          muted_pubkeys not_interested_posts author_scores g1 follower_count now
        = score_post cfg powHalf log10 event_id author_pubkey created_at engagement
          follow_list second_degree_follows followers engagement_history profiles
          muted_pubkeys not_interested_posts author_scores g2 follower_count now) := by
  have hb : ∀ (p : Option UserProfile),
      (p.bind (fun _ => (none : Option String))) = none := by
    intro p; cases p <;> rfl
  refine ⟨geohash_boost_author_none, hb, ?_⟩
  intro cfg powHalf log10 event_id author_pubkey created_at engagement
    follow_list second_degree_follows followers engagement_history profiles
    muted_pubkeys not_interested_posts author_scores g1 g2 follower_count now
  simp only [score_post, hb, geohash_boost_author_none]

/-- C10: a post timestamped in the future never underflows: the age
computation saturates at zero, the post counts as less than one hour old,
and `time_decay` returns the configured freshness boost (1.5 by default). -/
theorem claim_C10_future_post_freshness :
    (∀ (td : TimeDecayConfig) (powHalf : ℚ → ℚ) (now created_at : Nat),
      now < created_at →
      time_decay td powHalf now created_at = td.freshness_boost)
    ∧ defaultTimeDecay.freshness_boost = 3/2 := by
  constructor
  · intro td powHalf now created_at h
    have hz : (now - created_at : Nat) = 0 := Nat.sub_eq_zero_of_le (le_of_lt h)
    simp only [time_decay, hz]
    norm_num
  · rfl

/-- Witness for C10: a post one second in the future gets the freshness
boost under the default configuration. -/
theorem claim_C10_future_post_freshness_witness :
    time_decay defaultTimeDecay powHalfHalf 1000 1001
      = defaultTimeDecay.freshness_boost
    ∧ defaultTimeDecay.freshness_boost = 3/2 :=
  ⟨claim_C10_future_post_freshness.1 defaultTimeDecay powHalfHalf 1000 1001
      (by decide),
   claim_C10_future_post_freshness.2⟩

/-- The comparator ordering is transitive. -/
theorem relayLe_trans (a b c : GpsRelay × ℝ) (hab : relayLe a b) (hbc : relayLe b c) :
    relayLe a c := by
  rcases hab with h | ⟨he, hd⟩ <;> rcases hbc with h' | ⟨he', hd'⟩
  · exact Or.inl (lt_trans h h')
  · exact Or.inl (he' ▸ h)
  · exact Or.inl (he ▸ h')
  · exact Or.inr ⟨he.trans he', le_trans hd hd'⟩

/-- The comparator ordering is total. -/
theorem relayLe_total (a b : GpsRelay × ℝ) : relayLe a b ∨ relayLe b a := by
  rcases Nat.lt_trichotomy a.1.priority b.1.priority with h | h | h
  · exact Or.inl (Or.inl h)
  · rcases le_total a.2 b.2 with hd | hd
    · exact Or.inl (Or.inr ⟨h, hd⟩)
    · exact Or.inr (Or.inr ⟨h.symm, hd⟩)
  · exact Or.inr (Or.inl h)

/-- The haversine distance between identical coordinates is exactly zero. -/
theorem calculate_distance_self (lat lon : ℝ) :
    calculate_distance lat lon lat lon = 0 := by
  simp only [calculate_distance, toRadians, sub_self, zero_mul, zero_div, Real.sin_zero,
    ne_eq, OfNat.ofNat_ne_zero, not_false_eq_true, zero_pow, mul_zero, add_zero, zero_add,
    Real.sqrt_zero, sub_zero, Real.sqrt_one, atan2]
  norm_num

/-- The Boolean comparator decides `relayLe`. -/
theorem relayLeB_eq_true {a b : GpsRelay × ℝ} : relayLeB a b = true ↔ relayLe a b := by
  rw [relayLeB]
  exact @decide_eq_true_iff _ (Classical.propDecidable _)

/-- C8: `find_nearest_relays` returns the first `count` entries of the node
table sorted ascending lexicographically by (priority tier, haversine
distance): the output is pairwise ordered by `relayLe` (so a node of a
numerically smaller tier always precedes any node of a larger tier
regardless of distance, and distance breaks ties within a tier), the sorted
list is a permutation of the distance-annotated table, the result is its
`count`-prefix, and the distance between identical coordinates is exactly
`0.0`. -/
theorem claim_C8_nearest_relays :
    (∀ (lat lon : ℝ), calculate_distance lat lon lat lon = 0)
    ∧ (∀ (user_lat user_lon : ℝ) (count : Nat),
        (find_nearest_relays user_lat user_lon count).Pairwise relayLe)
    ∧ (∀ (user_lat user_lon : ℝ),
        List.Perm ((scoredRelays user_lat user_lon).mergeSort relayLeB)
          (scoredRelays user_lat user_lon))
    ∧ (∀ (user_lat user_lon : ℝ) (count : Nat),
        find_nearest_relays user_lat user_lon count
          = ((scoredRelays user_lat user_lon).mergeSort relayLeB).take count)
    ∧ (∀ (user_lat user_lon : ℝ) (count : Nat),
        (find_nearest_relays user_lat user_lon count).length
          = min count GPS_RELAY_DATABASE.length) := by
  refine ⟨calculate_distance_self, ?pairwise, ?perm, ?take, ?len⟩
  case pairwise =>
    intro u v n
    have h := @List.sorted_mergeSort (GpsRelay × ℝ) relayLeB
      (fun a b c hab hbc =>
        relayLeB_eq_true.2 (relayLe_trans a b c
          (relayLeB_eq_true.1 hab) (relayLeB_eq_true.1 hbc)))
      (fun a b => by
        rw [Bool.or_eq_true, relayLeB_eq_true, relayLeB_eq_true]
        exact relayLe_total a b)
      (scoredRelays u v)
    rw [find_nearest_relays]
    refine List.Pairwise.sublist (List.take_sublist _ _) (h.imp ?_)
    intro a b hab
    exact relayLeB_eq_true.1 hab
  case perm =>
    intro u v
    exact List.mergeSort_perm _ _
  case take =>
    intro u v n
    rfl
  case len =>
    intro u v n
    rw [find_nearest_relays, List.length_take, List.length_mergeSort, scoredRelays,
      List.length_map]

end NuruNuru
